import Mathlib

/-! EmotiBitMemoryController

A shallow embedding of `src/EmotiBitMemoryController.cpp` and properties of it.

The class declaration (`EmotiBitMemoryController.h`), the version enumeration and the
EEPROM and Si7013 drivers are not among the sources.  Constants that the code names but
that are declared there are collected in `Params`; the two drivers are modelled as ideal
byte stores following the store contract of section 6 of the specification.
-/

namespace EmotiBitMemoryController

/-! ## Constants declared outside the sources -/

/-- Constants named by the code whose declarations are in headers that are not among the
sources.  Enumerators are given by their integer value. -/
structure Params where
  /-- The value `(int)EmotiBitVersionController::EmotiBitVersion::V04A`. -/
  V04A : Int
  /-- The value `(int)DataType::VARIANT_INFO`. -/
  VARIANT_INFO : Nat
  /-- The value `(int)DataType::EDA`. -/
  EDA : Nat
  /-- The value `(int)DataType::length`, the bound of the known categories. -/
  length : Nat
  /-- The offset `ConstEepromAddr::NUM_MAP_SEGMENTS`. -/
  NUM_MAP_SEGMENTS : Nat
  /-- The offset `ConstEepromAddr::MEMORY_MAP_BASE`. -/
  MEMORY_MAP_BASE : Nat
  /-- Width in bytes of the unsigned integer type of the members `address` and `size` of
  `EepromMemoryMap`; `size_t` and `_nextAvailableAddress` are taken to have the same width. -/
  fieldBytes : Nat
  /-- The register `Si7013OtpMemoryMap::EMOTIBIT_VERSION_ADDR`. -/
  EMOTIBIT_VERSION_ADDR : Nat
  /-- The register `Si7013OtpMemoryMap::EDA_DATA_BASE_ADDR`. -/
  EDA_DATA_BASE_ADDR : Nat
  /-- The register `Si7013OtpMemoryMap::EDA_DATA_END_ADDR`. -/
  EDA_DATA_END_ADDR : Nat

/-- Number of values of the unsigned type of `address`, `size` and the cursor. -/
def Params.wordMod (p : Params) : Nat := 256 ^ p.fieldBytes

/-- The value `sizeof(EepromMemoryMap)`: two members of `fieldBytes` bytes, no padding. -/
def Params.sizeofEepromMemoryMap (p : Params) : Nat := 2 * p.fieldBytes

/-- Sanity of the constants: the integer members have at least one byte, every
`DataType` value survives the `(uint8_t)` casts of the code, `VARIANT_INFO` and `EDA` are
distinct known categories, and the count byte lies inside the 256-byte store. -/
def Params.WellFormed (p : Params) : Prop :=
  1 ≤ p.fieldBytes ∧ p.length ≤ 255 ∧ p.VARIANT_INFO < p.length ∧ p.EDA < p.length ∧
    p.VARIANT_INFO ≠ p.EDA ∧ p.NUM_MAP_SEGMENTS < 256

instance (p : Params) : Decidable p.WellFormed := by
  unfold Params.WellFormed
  exact inferInstance

/-! ## Data model -/

/-- The struct `EepromMemoryMap`: one entry of the region map. -/
structure EepromMemoryMap where
  address : Nat
  size : Nat
deriving DecidableEq, Repr

/-- The enumeration `Error`, as far as the code names its enumerators. -/
inductive Error where
  | FAILURE
  | MEMORY_NOT_UPDATED
  | OUT_OF_BOUNDS_ACCESS
deriving DecidableEq, Repr

/-- How a call of a `uint8_t` member function ends. -/
inductive Ret where
  /-- The statement `return 0`. -/
  | ok
  /-- The statement `return (uint8_t)Error::e`. -/
  | error (e : Error)
  /-- The call spins in `while (status == MemoryControllerStatus::BUSY);` until the
  interrupt routine changes `status`; the value it then returns, `(uint8_t)writeResult`,
  is left by the interrupt routine and is not determined here. -/
  | waiting
  /-- A counting loop over `uint8_t` whose bound is never exceeded. -/
  | diverges
  /-- Control reaches the end of the function without a `return` statement. -/
  | noReturn
deriving DecidableEq, Repr

/-- The enumeration `MemoryControllerStatus`. -/
inductive MemoryControllerStatus where
  | IDLE
  | BUSY
deriving DecidableEq, Repr

/-- A `uint8_t*`: `none` is `nullptr`, `some m` points to memory holding byte `m i` at
offset `i`. -/
abbrev BytePtr := Option (Nat → Nat)

/-- The memory holding the bytes of `d` (zero beyond them). -/
def ptrTo (d : List Nat) : Nat → Nat := fun i => d.getD i 0

/-- The `n` bytes found at the pointer `m`. -/
def bytesAt (m : Nat → Nat) (n : Nat) : List Nat := (List.range n).map m

/-- The struct `Buffer`: the single pending write. -/
structure Buffer where
  data : BytePtr
  dataTypeVersion : Nat
  dataLength : Nat
  datatype : Nat

/-- The struct `emotibitEepromSettings`. -/
structure EepromSettings where
  capacityBytes : Nat
  pageSizeBytes : Nat
deriving DecidableEq, Repr

/-- Modelled from the spec: the EEPROM driver behind `emotibitEeprom` is an external
collaborator; following the store contract (`read(offset)`, `read(offset, buffer, length)`,
`write(offset, byte|buffer, length)`) it is an ideal byte store.  `writes` records the
write calls in the order they were issued, each with its offset and bytes. -/
structure ExternalEEPROM where
  cells : Nat → Nat
  writes : List (Nat × List Nat)

/-- Modelled from the spec: `write(offset, byte)` of the store contract. -/
def ExternalEEPROM.write1 (e : ExternalEEPROM) (offset byte : Nat) : ExternalEEPROM :=
  { cells := fun a => if a = offset then byte % 256 else e.cells a
    writes := e.writes ++ [(offset, [byte % 256])] }

/-- Modelled from the spec: `write(offset, buffer, length)` of the store contract. -/
def ExternalEEPROM.write (e : ExternalEEPROM) (offset : Nat) (bytes : List Nat) :
    ExternalEEPROM :=
  { cells := fun a =>
      if offset ≤ a ∧ a < offset + bytes.length then bytes.getD (a - offset) 0 else e.cells a
    writes := e.writes ++ [(offset, bytes)] }

/-- Modelled from the spec: `read(offset) -> byte` of the store contract. -/
def ExternalEEPROM.read1 (e : ExternalEEPROM) (offset : Nat) : Nat := e.cells offset % 256

/-- Modelled from the spec: `read(offset, buffer, length)` of the store contract. -/
def ExternalEEPROM.read (e : ExternalEEPROM) (offset len : Nat) : List Nat :=
  (List.range len).map fun i => e.cells (offset + i)

/-- The object `EmotiBitMemoryController`.  The array `map` is declared in the header;
its bound is not checked anywhere in the code, so the model keeps one cell per index
(cells at and beyond `DataType::length` stand for the storage behind the array).
`si7013` is the OTP register file of the sensor. -/
structure Controller where
  _version : Int
  emotibitEeprom : ExternalEEPROM
  emotibitEepromSettings : EepromSettings
  si7013 : Nat → Nat
  map : Nat → EepromMemoryMap
  _buffer : Buffer
  _nextAvailableAddress : Nat
  _numMapSegments : Nat
  status : MemoryControllerStatus

/-! ## Object representation of a map entry -/

/-- The `w` bytes of the unsigned integer `n`, least significant first. -/
def leBytes : Nat → Nat → List Nat
  | 0, _ => []
  | w + 1, n => n % 256 :: leBytes w (n / 256)

/-- The unsigned integer with the given bytes, least significant first. -/
def ofLeBytes : List Nat → Nat
  | [] => 0
  | b :: bs => b % 256 + 256 * ofLeBytes bs

/-- The bytes seen through `(uint8_t*)` at an `EepromMemoryMap` (little-endian targets). -/
def entryBytes (p : Params) (e : EepromMemoryMap) : List Nat :=
  leBytes p.fieldBytes e.address ++ leBytes p.fieldBytes e.size

/-- The `EepromMemoryMap` seen through `(EepromMemoryMap*)` at the given bytes. -/
def entryOfBytes (p : Params) (bs : List Nat) : EepromMemoryMap :=
  { address := ofLeBytes (bs.take p.fieldBytes)
    size := ofLeBytes ((bs.drop p.fieldBytes).take p.fieldBytes) }

/-! ## The member functions -/

/-- The function `EmotiBitMemoryController::init`; `beginOk` and `setupOk` are the answers
of `emotibitEeprom.begin` and `si7013.setup`.  The result is `none` when no `return` is
reached. -/
def init (p : Params) (s : Controller) (version : Int) (beginOk setupOk : Bool) :
    Option Bool × Controller :=
  let s := { s with _version := version }
  if version = p.V04A then
    if beginOk then
      (some true, { s with emotibitEepromSettings := { capacityBytes := 256, pageSizeBytes := 16 } })
    else
      (some false, s)
  else if version ≤ p.V04A then
    if setupOk then (some true, s) else (some false, s)
  else
    (none, s)

/-- The function `EmotiBitMemoryController::updateMemoryMap`. -/
def updateMemoryMap (p : Params) (s : Controller) (datatype size : Nat) : Controller :=
  { s with
    map := fun i =>
      if i = datatype % 256 then { address := s._nextAvailableAddress, size := size }
      else s.map i
    _nextAvailableAddress := (s._nextAvailableAddress + size) % p.wordMod }

/-- The function `EmotiBitMemoryController::updateBuffer`. -/
def updateBuffer (p : Params) (s : Controller) (datatype version size : Nat) (data : BytePtr) :
    Controller :=
  let s := updateMemoryMap p s datatype ((size + 1) % p.wordMod)
  { s with
    _buffer :=
      { datatype := datatype, dataTypeVersion := version % 256, dataLength := size, data := data } }

/-- The function `EmotiBitMemoryController::Buffer::clear`. -/
def Buffer.clear (p : Params) (_b : Buffer) : Buffer :=
  { data := none, dataLength := 0, dataTypeVersion := 0, datatype := p.length }

/-- The function `EmotiBitMemoryController::writeToEeprom`.  In
`mapData = (uint8_t*)(map + ((int)_buffer.datatype)*sizeof(EepromMemoryMap))` the sum is
pointer arithmetic on `EepromMemoryMap*`, so `mapData` is the address of
`map[datatype * sizeof(EepromMemoryMap)]`. -/
def writeToEeprom (p : Params) (s : Controller) : Ret × Controller :=
  if s._version = p.V04A then
    let s :=
      match s._buffer.data with
      | some data =>
        if s._buffer.dataLength > 0 then
          let n := (s._numMapSegments + 1) % 256
          let e := s.emotibitEeprom.write1 p.NUM_MAP_SEGMENTS n
          let offsetMapAddress := p.MEMORY_MAP_BASE + s._buffer.datatype * p.sizeofEepromMemoryMap
          let mapData := entryBytes p (s.map (s._buffer.datatype * p.sizeofEepromMemoryMap))
          let e := e.write offsetMapAddress mapData
          let e := e.write (s.map s._buffer.datatype).address (bytesAt data s._buffer.dataLength)
          let e := e.write1 ((s.map s._buffer.datatype).address + s._buffer.dataLength)
            s._buffer.dataTypeVersion
          { s with _numMapSegments := n, emotibitEeprom := e }
        else s
      | none => s
    (Ret.ok, { s with _buffer := s._buffer.clear p })
  else
    (Ret.noReturn, s)

/-- The function `EmotiBitMemoryController::requestToWrite`. -/
def requestToWrite (p : Params) (s : Controller) (datatype version size : Nat) (data : BytePtr)
    (syncWrite : Bool) : Ret × Controller :=
  if s._version = p.V04A then
    match data with
    | some d =>
      if datatype ≠ p.length then
        let s := updateBuffer p s datatype version size (some d)
        if datatype = p.VARIANT_INFO then
          writeToEeprom p s
        else if syncWrite then
          (Ret.waiting, { s with status := MemoryControllerStatus.BUSY })
        else
          (Ret.ok, s)
      else
        (Ret.error Error.OUT_OF_BOUNDS_ACCESS, s)
    | none => (Ret.error Error.FAILURE, s)
  else
    (Ret.noReturn, s)

/-- The function `EmotiBitMemoryController::loadMemoryMap`. -/
def loadMemoryMap (p : Params) (s : Controller) : Ret × Controller :=
  if s._version = p.V04A then
    let s := { s with _numMapSegments := s.emotibitEeprom.read1 p.NUM_MAP_SEGMENTS }
    if s._numMapSegments = 255 then
      (Ret.error Error.MEMORY_NOT_UPDATED, s)
    else
      let mapData :=
        s.emotibitEeprom.read p.MEMORY_MAP_BASE (p.sizeofEepromMemoryMap * s._numMapSegments)
      let map := (List.range s._numMapSegments).foldl
        (fun m i => fun j =>
          if j = i then
            entryOfBytes p ((mapData.drop (i * p.sizeofEepromMemoryMap)).take p.sizeofEepromMemoryMap)
          else m j)
        s.map
      (Ret.ok, { s with map := map })
  else
    (Ret.noReturn, s)

/-- The function `EmotiBitMemoryController::readFromMemory`; the second component is the
content of the buffer handed back through `*data` (`none` when `*data` is not assigned). -/
def readFromMemory (p : Params) (s : Controller) (datatype : Nat) : Ret × Option (List Nat) :=
  if s._version = p.V04A then
    if (s.map (datatype % 256)).size ≠ 0 then
      if datatype ≠ p.length then
        (Ret.ok,
          some (s.emotibitEeprom.read (s.map (datatype % 256)).address (s.map (datatype % 256)).size))
      else
        (Ret.error Error.OUT_OF_BOUNDS_ACCESS, none)
    else
      (Ret.error Error.MEMORY_NOT_UPDATED, none)
  else if s._version < p.V04A then
    if datatype = p.VARIANT_INFO then
      (Ret.ok, some [s.si7013 p.EMOTIBIT_VERSION_ADDR])
    else if datatype = p.EDA then
      if p.EDA_DATA_END_ADDR < 255 then
        (Ret.ok,
          some ((List.range (p.EDA_DATA_END_ADDR + 1 - p.EDA_DATA_BASE_ADDR)).map fun i =>
            s.si7013 (p.EDA_DATA_BASE_ADDR + i)))
      else
        (Ret.diverges, none)
    else
      (Ret.error Error.FAILURE, none)
  else
    (Ret.noReturn, none)

/-! ## Concrete instances -/

/-- A concrete choice of the constants: 32-bit members, count byte at offset 0, table at
offset 1, two categories. -/
def sampleParams : Params :=
  { V04A := 6, VARIANT_INFO := 0, EDA := 1, length := 2, NUM_MAP_SEGMENTS := 0,
    MEMORY_MAP_BASE := 1, fieldBytes := 4, EMOTIBIT_VERSION_ADDR := 183,
    EDA_DATA_BASE_ADDR := 130, EDA_DATA_END_ADDR := 149 }

/-- An erased store: every cell reads 255, no write issued. -/
def erasedEeprom : ExternalEEPROM := { cells := fun _ => 255, writes := [] }

/-- A newly constructed controller for `sampleParams` of the given revision over the given
store: empty map, cleared buffer, cursor behind the table, count 0. -/
def sampleController (version : Int) (e : ExternalEEPROM) : Controller :=
  { _version := version
    emotibitEeprom := e
    emotibitEepromSettings := { capacityBytes := 256, pageSizeBytes := 16 }
    si7013 := fun _ => 0
    map := fun _ => { address := 0, size := 0 }
    _buffer := { data := none, dataTypeVersion := 0, dataLength := 0, datatype := 2 }
    _nextAvailableAddress := 17
    _numMapSegments := 0
    status := MemoryControllerStatus.IDLE }


/-- A controller of revision V04A whose buffer holds an uncommitted request: category EDA,
schema version 7, payload `[170, 187]`. -/
def pendingController : Controller :=
  (requestToWrite sampleParams (sampleController 6 erasedEeprom) sampleParams.EDA 7 2
    (some (ptrTo [170, 187])) false).2

/-- A controller of revision V04A in which the size found at map index `length` is 5. -/
def overrunController : Controller :=
  { sampleController 6 erasedEeprom with
    map := fun i => if i = 2 then { address := 40, size := 5 } else { address := 0, size := 0 } }

/-- The controller `pendingController` after `writeToEeprom`. -/
def committedController : Controller := (writeToEeprom sampleParams pendingController).2

/-- The store left behind by a new controller of revision V04A after a request for the
category `VARIANT_INFO` (schema version 7, payload `[170, 187]`), which commits at once. -/
def variantStore : ExternalEEPROM :=
  (requestToWrite sampleParams (sampleController 6 erasedEeprom) sampleParams.VARIANT_INFO 7 2
    (some (ptrTo [170, 187])) false).2.emotibitEeprom

/-- The controller that wrote `variantStore` after a further request for the category EDA
(schema version 3, payload `[1, 2, 3]`) and its commit. -/
def twoRegionController : Controller :=
  (writeToEeprom sampleParams
    (requestToWrite sampleParams
      (requestToWrite sampleParams (sampleController 6 erasedEeprom) sampleParams.VARIANT_INFO 7 2
        (some (ptrTo [170, 187])) false).2
      sampleParams.EDA 3 3 (some (ptrTo [1, 2, 3])) false).2).2

/-! ## Sequences of requests -/

/-- The arguments of one call of `requestToWrite` with a non-null data pointer. -/
structure Request where
  datatype : Nat
  version : Nat
  size : Nat
  data : Nat → Nat
  syncWrite : Bool

/-- The controller after one call of `requestToWrite` with the arguments `r`. -/
def afterRequest (p : Params) (s : Controller) (r : Request) : Controller :=
  (requestToWrite p s r.datatype r.version r.size (some r.data) r.syncWrite).2

/-- The controller after the calls `rs` of `requestToWrite`, in order. -/
def afterRequests (p : Params) (s : Controller) (rs : List Request) : Controller :=
  rs.foldl (afterRequest p) s

/-- Every call of `rs`, made in order from `s`, names a known category and does not
overflow the cursor: cursor plus payload length plus one stays representable. -/
def Accepted (p : Params) : Controller → List Request → Prop
  | _, [] => True
  | s, r :: rs =>
    r.datatype < p.length ∧ s._nextAvailableAddress + r.size + 1 < p.wordMod ∧
      Accepted p (afterRequest p s r) rs

/-- The regions of the known categories with non-zero size are pairwise disjoint and end
at or before the cursor. -/
def RegionInvariant (p : Params) (t : Controller) : Prop :=
  (∀ i j, i < p.length → j < p.length → i ≠ j → (t.map i).size ≠ 0 → (t.map j).size ≠ 0 →
      (t.map i).address + (t.map i).size ≤ (t.map j).address ∨
        (t.map j).address + (t.map j).size ≤ (t.map i).address) ∧
    ∀ i, i < p.length → (t.map i).size ≠ 0 →
      (t.map i).address + (t.map i).size ≤ t._nextAvailableAddress

/-- The specification side of the immediate commit: buffer the request, then run
`writeToEeprom`. -/
def bufferThenCommit (p : Params) (s : Controller) (datatype version size : Nat)
    (data : Nat → Nat) : Ret × Controller :=
  writeToEeprom p (updateBuffer p s datatype version size (some data))

/-! ## Further concrete instances -/

/-- A new controller of revision V04A over `variantStore` after `loadMemoryMap`: the
controller after a restart of the device that wrote `variantStore`. -/
def restartedController : Controller :=
  (loadMemoryMap sampleParams (sampleController 6 variantStore)).2

/-- The controller `restartedController` after a request for the category EDA (schema
version 3, payload `[1, 2, 3]`) and its commit. -/
def restartedAfterWrite : Controller :=
  (writeToEeprom sampleParams
    (requestToWrite sampleParams restartedController sampleParams.EDA 3 3
      (some (ptrTo [1, 2, 3])) false).2).2

/-- A new controller of revision V04A over an erased store after `loadMemoryMap`: the
controller at first boot. -/
def firstBootController : Controller :=
  (loadMemoryMap sampleParams (sampleController 6 erasedEeprom)).2

/-- The controller `firstBootController` after a request for the category `VARIANT_INFO`
(schema version 7, payload `[170, 187]`) followed by `writeToEeprom`. -/
def firstBootAfterWrite : Controller :=
  (writeToEeprom sampleParams
    (requestToWrite sampleParams firstBootController sampleParams.VARIANT_INFO 7 2
      (some (ptrTo [170, 187])) false).2).2

/-- Two requests in the order of first use: `VARIANT_INFO` (schema version 7, payload
`[170, 187]`), then EDA (schema version 3, payload `[1, 2, 3]`). -/
def sampleRequests : List Request :=
  [{ datatype := 0, version := 7, size := 2, data := ptrTo [170, 187], syncWrite := false },
    { datatype := 1, version := 3, size := 3, data := ptrTo [1, 2, 3], syncWrite := false }]

/-- A new controller after `init` for revision V04A with a responding EEPROM. -/
def initialisedController : Controller :=
  (init sampleParams (sampleController 6 erasedEeprom) 6 true true).2

end EmotiBitMemoryController

/-! EdaCorrection

The data members of the class `EdaCorrection` of `src/EDA_Correction.h`.  The member
functions are only declared there; their bodies are not among the sources. -/

/-- The enumeration `EdaCorrection::Status`. -/
inductive EdaCorrection.Status where
  | SUCCESS
  | FAILURE
deriving DecidableEq, Repr

/-- The enumeration `EdaCorrection::Mode`. -/
inductive EdaCorrection.Mode where
  | NORMAL
  | UPDATE
deriving DecidableEq, Repr

/-- The enumeration `EdaCorrection::Progress`. -/
inductive EdaCorrection.Progress where
  | WAITING_FOR_SERIAL_DATA
  | WAITING_USER_APPROVAL
  | WRITING_TO_OTP
deriving DecidableEq, Repr

/-- The data members of the class `EdaCorrection` with their default member initialisers.
The two `float` arrays (zero-initialised) are left out; `progress`, `vref1Corrected` and
`RskinFeedback` have no initialiser. -/
structure EdaCorrection where
  _updateMode : Bool := false
  _approvedToWriteOtp : Bool := false
  _responseRecorded : Bool := false
  isOtpValid : Bool := true
  displayedValidityStatus : Bool := false
  readOtpValues : Bool := false
  calculationPerformed : Bool := false
  dummyWrite : Bool := false
  triedRegOverwrite : Bool := false
  dummyOtp : List Nat := List.replicate 20 0
  vref1Corrected : Nat
  RskinFeedback : Nat
  _mode : EdaCorrection.Mode := EdaCorrection.Mode.NORMAL
  progress : EdaCorrection.Progress
deriving DecidableEq, Repr

namespace EdaCorrection

/-- The object right after construction; the members without initialiser hold whatever
the storage held, given here as arguments. -/
def fresh (progress : Progress) (vref1Corrected RskinFeedback : Nat) : EdaCorrection :=
  { progress := progress, vref1Corrected := vref1Corrected, RskinFeedback := RskinFeedback }

/-- The constant `NUM_EDA_READINGS`. -/
def NUM_EDA_READINGS : Nat := 5

/-- The constant `SI_7013_OTP_ADDRESS_FLOAT_0`, `(uint8_t)0x82`. -/
def SI_7013_OTP_ADDRESS_FLOAT_0 : Nat := 0x82 % 256

/-- The constant `SI_7013_OTP_ADDRESS_FLOAT_1`, `(uint8_t)0x86`. -/
def SI_7013_OTP_ADDRESS_FLOAT_1 : Nat := 0x86 % 256

/-- The constant `SI_7013_OTP_ADDRESS_FLOAT_2`, `(uint8_t)0x8A`. -/
def SI_7013_OTP_ADDRESS_FLOAT_2 : Nat := 0x8A % 256

/-- The constant `SI_7013_OTP_ADDRESS_FLOAT_3`, `(uint8_t)0x8E`. -/
def SI_7013_OTP_ADDRESS_FLOAT_3 : Nat := 0x8E % 256

/-- The constant `SI_7013_OTP_ADDRESS_FLOAT_4`, `(uint8_t)0x92`. -/
def SI_7013_OTP_ADDRESS_FLOAT_4 : Nat := 0x92 % 256

/-- The constant `SI_7013_OTP_ADDRESS_METADATA`, `(uint8_t)0xB6`. -/
def SI_7013_OTP_ADDRESS_METADATA : Nat := 0xB6 % 256

/-- The constant `SI_7013_OTP_ADDRESS_TEST_1`, `(uint8_t)0xA2` (defined under `EDA_TESTING`). -/
def SI_7013_OTP_ADDRESS_TEST_1 : Nat := 0xA2 % 256

/-- The constant `SI_7013_OTP_ADDRESS_TEST_2`, `(uint8_t)0xA6` (defined under `EDA_TESTING`). -/
def SI_7013_OTP_ADDRESS_TEST_2 : Nat := 0xA6 % 256

/-- The five calibration float addresses, in slot order. -/
def floatAddresses : List Nat :=
  [SI_7013_OTP_ADDRESS_FLOAT_0, SI_7013_OTP_ADDRESS_FLOAT_1, SI_7013_OTP_ADDRESS_FLOAT_2,
    SI_7013_OTP_ADDRESS_FLOAT_3, SI_7013_OTP_ADDRESS_FLOAT_4]

/-- Number of OTP registers taken by one `float`: `sizeof(float)` on the 32-bit targets,
in line with `char dummyOtp[20]` for five readings. -/
def floatBytes : Nat := 4

/-- The register ranges `[a, a + la)` and `[b, b + lb)` have no register in common. -/
def disjoint (a la b lb : Nat) : Prop := a + la ≤ b ∨ b + lb ≤ a

instance (a la b lb : Nat) : Decidable (disjoint a la b lb) := by
  unfold disjoint
  exact inferInstance

end EdaCorrection

namespace EmotiBitMemoryController

/-! ## Auxiliary facts -/

theorem wordMod_ge (p : Params) (h : 1 ≤ p.fieldBytes) : 256 ≤ p.wordMod := by
  unfold Params.wordMod
  calc 256 = 256 ^ 1 := by norm_num
    _ ≤ 256 ^ p.fieldBytes := Nat.pow_le_pow_right (by norm_num) h

theorem leBytes_length (w n : Nat) : (leBytes w n).length = w := by
  induction w generalizing n with
  | zero => rfl
  | succ k ih => simp [leBytes, ih]

theorem ofLeBytes_leBytes (w n : Nat) : ofLeBytes (leBytes w n) = n % 256 ^ w := by
  induction w generalizing n with
  | zero => simp [leBytes, ofLeBytes, Nat.mod_one]
  | succ k ih =>
    simp only [leBytes, ofLeBytes, ih, Nat.mod_mod]
    rw [pow_succ, Nat.mul_comm (256 ^ k) 256, Nat.mod_mul]

/-- Reading back the bytes of a map entry gives the entry, its members reduced to their
width. -/
theorem entryOfBytes_entryBytes (p : Params) (e : EepromMemoryMap) :
    entryOfBytes p (entryBytes p e)
      = { address := e.address % p.wordMod, size := e.size % p.wordMod } := by
  have ht : ∀ n, (leBytes p.fieldBytes n).take p.fieldBytes = leBytes p.fieldBytes n :=
    fun n => List.take_of_length_le (by rw [leBytes_length])
  simp [entryOfBytes, entryBytes, List.take_append_eq_append_take, List.drop_append_eq_append_drop,
    leBytes_length, ofLeBytes_leBytes, Params.wordMod, ht]

theorem bytesAt_length (m : Nat → Nat) (n : Nat) : (bytesAt m n).length = n := by
  simp [bytesAt]

theorem bytesAt_ptrTo (d : List Nat) : bytesAt (ptrTo d) d.length = d := by
  apply List.ext_getElem
  · simp [bytesAt]
  · intro i h1 h2
    simp [bytesAt, ptrTo, List.getD_eq_getElem?_getD, List.getElem?_eq_getElem h2]

theorem foldl_pointwise {α : Type} (f : Nat → α) (m : Nat → α) (n : Nat) :
    (List.range n).foldl (fun m i => fun j => if j = i then f i else m j) m
      = fun j => if j < n then f j else m j := by
  induction n with
  | zero => simp
  | succ k ih =>
    rw [List.range_succ, List.foldl_append, ih]
    funext j
    simp only [List.foldl_cons, List.foldl_nil]
    by_cases h : j = k
    · subst h; simp
    · have : j < k + 1 ↔ j < k := by omega
      simp [h, this]

theorem read_drop_take (e : ExternalEEPROM) (base len k m : Nat) (h : k + m ≤ len) :
    ((e.read base len).drop k).take m = e.read (base + k) m := by
  apply List.ext_getElem
  · simp [ExternalEEPROM.read]; omega
  · intro i h1 h2
    simp [ExternalEEPROM.read, Nat.add_assoc]

theorem writeToEeprom_ret (p : Params) (s : Controller) (hv : s._version = p.V04A) :
    (writeToEeprom p s).1 = Ret.ok := by
  simp [writeToEeprom, hv]

theorem writeToEeprom_version (p : Params) (t : Controller) :
    (writeToEeprom p t).2._version = t._version := by
  unfold writeToEeprom
  split
  · cases hd : t._buffer.data with
    | none => simp
    | some m => by_cases h : 0 < t._buffer.dataLength <;> simp [h]
  · rfl

theorem writeToEeprom_map (p : Params) (t : Controller) :
    (writeToEeprom p t).2.map = t.map := by
  unfold writeToEeprom
  split
  · cases hd : t._buffer.data with
    | none => simp
    | some m => by_cases h : 0 < t._buffer.dataLength <;> simp [h]
  · rfl

theorem writeToEeprom_buffer (p : Params) (t : Controller) (hv : t._version = p.V04A) :
    (writeToEeprom p t).2._buffer = { data := none, dataLength := 0, dataTypeVersion := 0, datatype := p.length } := by
  simp [writeToEeprom, hv, Buffer.clear]

theorem writeToEeprom_store_idle (p : Params) (t : Controller) (hb : t._buffer.data = none) :
    (writeToEeprom p t).2.emotibitEeprom = t.emotibitEeprom := by
  unfold writeToEeprom
  split
  · simp [hb]
  · rfl

theorem writeToEeprom_store_pending (p : Params) (t : Controller) (hv : t._version = p.V04A)
    (m : Nat → Nat) (hb : t._buffer.data = some m) (hpos : 0 < t._buffer.dataLength) :
    (writeToEeprom p t).2.emotibitEeprom
      = (((t.emotibitEeprom.write1 p.NUM_MAP_SEGMENTS ((t._numMapSegments + 1) % 256)).write
            (p.MEMORY_MAP_BASE + t._buffer.datatype * p.sizeofEepromMemoryMap)
            (entryBytes p (t.map (t._buffer.datatype * p.sizeofEepromMemoryMap)))).write
          (t.map t._buffer.datatype).address (bytesAt m t._buffer.dataLength)).write1
        ((t.map t._buffer.datatype).address + t._buffer.dataLength) t._buffer.dataTypeVersion := by
  simp [writeToEeprom, hv, hb, hpos]

theorem read_after_commit (e : ExternalEEPROM) (a : Nat) (m : Nat → Nat) (n v : Nat) :
    ((e.write a (bytesAt m n)).write1 (a + n) v).read a (n + 1) = bytesAt m n ++ [v % 256] := by
  apply List.ext_getElem
  · simp [ExternalEEPROM.read, bytesAt]
  · intro i h1 h2
    simp only [ExternalEEPROM.read, List.length_map, List.length_range] at h1
    by_cases hi : i = n
    · subst hi
      simp [ExternalEEPROM.read, ExternalEEPROM.write1, ExternalEEPROM.write, bytesAt]
    · have hlt : i < n := by omega
      have hne : a + i ≠ a + n := by omega
      simp [ExternalEEPROM.read, ExternalEEPROM.write1, ExternalEEPROM.write, bytesAt, hi, hlt,
        List.getElem_append_left, List.getD_eq_getElem?_getD, List.getElem?_eq_getElem]


theorem writeToEeprom_store_busy (p : Params) (t : Controller) :
    (writeToEeprom p { t with status := MemoryControllerStatus.BUSY }).2.emotibitEeprom
      = (writeToEeprom p t).2.emotibitEeprom := by
  unfold writeToEeprom
  by_cases hv : t._version = p.V04A
  · cases hd : t._buffer.data with
    | none => simp [hv, hd]
    | some m => by_cases h : 0 < t._buffer.dataLength <;> simp [hv, hd, h]
  · simp [hv]

theorem updateBuffer_version (p : Params) (s : Controller) (c v n : Nat) (data : BytePtr) :
    (updateBuffer p s c v n data)._version = s._version := rfl

theorem commit_after_request (p : Params) (s : Controller) (hv : s._version = p.V04A)
    (c : Nat) (hne : c ≠ p.length) (v n : Nat) (m : Nat → Nat) (syncWrite : Bool) :
    (writeToEeprom p (requestToWrite p s c v n (some m) syncWrite).2).2._version = p.V04A ∧
      (writeToEeprom p (requestToWrite p s c v n (some m) syncWrite).2).2.map
        = (updateBuffer p s c v n (some m)).map ∧
      (writeToEeprom p (requestToWrite p s c v n (some m) syncWrite).2).2.emotibitEeprom
        = (writeToEeprom p (updateBuffer p s c v n (some m))).2.emotibitEeprom := by
  have htv : (updateBuffer p s c v n (some m))._version = p.V04A := hv
  rw [writeToEeprom_version, writeToEeprom_map]
  by_cases h1 : c = p.VARIANT_INFO
  · have hreq : requestToWrite p s c v n (some m) syncWrite
        = writeToEeprom p (updateBuffer p s c v n (some m)) := by
      simp [requestToWrite, hv, hne, h1.symm]
    rw [hreq, writeToEeprom_version, writeToEeprom_map, writeToEeprom_store_idle]
    · exact ⟨htv, rfl, rfl⟩
    · rw [writeToEeprom_buffer p _ htv]
  · cases syncWrite
    · have hreq : requestToWrite p s c v n (some m) false
          = (Ret.ok, updateBuffer p s c v n (some m)) := by
        simp [requestToWrite, hv, hne, h1]
      rw [hreq]
      exact ⟨htv, rfl, rfl⟩
    · have hreq : requestToWrite p s c v n (some m) true
          = (Ret.waiting,
              { updateBuffer p s c v n (some m) with status := MemoryControllerStatus.BUSY }) := by
        simp [requestToWrite, hv, hne, h1]
      rw [hreq]
      exact ⟨htv, rfl, writeToEeprom_store_busy p _⟩

/-! ## Unknown category and empty data in `requestToWrite` -/

/-- C1 (as amended): on newer hardware, `requestToWrite` called with the unknown category
`DataType::length` and a non-null data pointer fails with `OUT_OF_BOUNDS_ACCESS`, and with
a null data pointer it fails with `FAILURE` before the category is looked at; in both cases
the controller (region map, allocation cursor, pending buffer) is left as it was. -/
theorem requestToWrite_unknown_category (p : Params) (s : Controller)
    (hv : s._version = p.V04A) (version size : Nat) (syncWrite : Bool) :
    (∀ d : Nat → Nat, requestToWrite p s p.length version size (some d) syncWrite
        = (Ret.error Error.OUT_OF_BOUNDS_ACCESS, s)) ∧
      requestToWrite p s p.length version size none syncWrite = (Ret.error Error.FAILURE, s) := by
  constructor
  · intro d
    simp [requestToWrite, hv]
  · simp [requestToWrite, hv]

/-- Instance of `requestToWrite_unknown_category` on a new controller of revision V04A. -/
theorem requestToWrite_unknown_category_witness :
    (sampleController 6 erasedEeprom)._version = sampleParams.V04A ∧
      ((∀ d : Nat → Nat,
          requestToWrite sampleParams (sampleController 6 erasedEeprom) sampleParams.length 1 2
              (some d) false
            = (Ret.error Error.OUT_OF_BOUNDS_ACCESS, sampleController 6 erasedEeprom)) ∧
        requestToWrite sampleParams (sampleController 6 erasedEeprom) sampleParams.length 1 2
            none false
          = (Ret.error Error.FAILURE, sampleController 6 erasedEeprom)) :=
  ⟨by decide, requestToWrite_unknown_category sampleParams (sampleController 6 erasedEeprom)
    (by decide) 1 2 false⟩

/-- C1 (as stated) fails: with a null data pointer the unknown category is answered with
`FAILURE`, not `OUT_OF_BOUNDS_ACCESS`, and on a revision other than V04A the call ends
without returning a status. -/
theorem requestToWrite_unknown_category_not_always_out_of_bounds :
    (requestToWrite sampleParams (sampleController 6 erasedEeprom) sampleParams.length 1 2
        none false).1 = Ret.error Error.FAILURE ∧
      (requestToWrite sampleParams (sampleController 6 erasedEeprom) sampleParams.length 1 2
        none false).1 ≠ Ret.error Error.OUT_OF_BOUNDS_ACCESS ∧
      (requestToWrite sampleParams (sampleController 5 erasedEeprom) sampleParams.length 1 2
        (some (ptrTo [9, 9])) false).1 = Ret.noReturn := by
  decide

/-- C9 (as amended): on newer hardware, for a category other than `DataType::length`,
`requestToWrite` with a null data pointer fails with `FAILURE` and nothing is buffered or
allocated (the controller is unchanged), whatever `syncWrite` is.  When `syncWrite` is
false or the category is `VARIANT_INFO`, the call fails with `FAILURE` exactly when the
data pointer is null, so a payload length of zero behind a non-null pointer is not
rejected.  Nothing is stated about the value returned by a synchronous request for
another category, which is `writeResult` as left by the interrupt routine. -/
theorem requestToWrite_failure_iff_null (p : Params) (s : Controller)
    (hv : s._version = p.V04A) (c : Nat) (hc : c ≠ p.length) (version size : Nat)
    (data : BytePtr) (syncWrite : Bool) :
    (data = none →
        requestToWrite p s c version size data syncWrite = (Ret.error Error.FAILURE, s)) ∧
      (syncWrite = false ∨ c = p.VARIANT_INFO →
        ((requestToWrite p s c version size data syncWrite).1 = Ret.error Error.FAILURE
          ↔ data = none)) := by
  cases data with
  | none => simp [requestToWrite, hv]
  | some d =>
    have hupd : (updateBuffer p s c version size (some d))._version = p.V04A := by
      simp [updateBuffer, updateMemoryMap, hv]
    refine ⟨fun h => by simp at h, fun hret => ?_⟩
    by_cases h1 : c = p.VARIANT_INFO
    · simp [requestToWrite, hv, hc, h1.symm, writeToEeprom_ret p _ hupd]
    · have hs : syncWrite = false := hret.resolve_right h1
      subst hs
      simp [requestToWrite, hv, hc, h1]

/-- Instance of `requestToWrite_failure_iff_null`: for the category EDA without
`syncWrite`, a null pointer is answered with `FAILURE` on an unchanged controller, and for
an empty payload behind a non-null pointer the answer is `FAILURE` only if that pointer
is null. -/
theorem requestToWrite_failure_iff_null_witness :
    (sampleController 6 erasedEeprom)._version = sampleParams.V04A ∧
      sampleParams.EDA ≠ sampleParams.length ∧
      requestToWrite sampleParams (sampleController 6 erasedEeprom) sampleParams.EDA 1 2
          none false
        = (Ret.error Error.FAILURE, sampleController 6 erasedEeprom) ∧
      ((requestToWrite sampleParams (sampleController 6 erasedEeprom) sampleParams.EDA 1 0
            (some (ptrTo [])) false).1 = Ret.error Error.FAILURE
        ↔ (some (ptrTo []) : BytePtr) = none) :=
  ⟨by decide, by decide,
    (requestToWrite_failure_iff_null sampleParams (sampleController 6 erasedEeprom) (by decide)
      sampleParams.EDA (by decide) 1 2 none false).1 rfl,
    (requestToWrite_failure_iff_null sampleParams (sampleController 6 erasedEeprom) (by decide)
      sampleParams.EDA (by decide) 1 0 (some (ptrTo [])) false).2 (Or.inl rfl)⟩

/-- C9 (as stated) fails: a payload length of zero behind a non-null pointer is accepted;
the call returns 0, the request is buffered and a one-byte region is allocated. -/
theorem requestToWrite_zero_length_accepted :
    (requestToWrite sampleParams (sampleController 6 erasedEeprom) sampleParams.EDA 1 0
        (some (ptrTo [])) false).1 = Ret.ok ∧
      (requestToWrite sampleParams (sampleController 6 erasedEeprom) sampleParams.EDA 1 0
        (some (ptrTo [])) false).2._buffer.datatype = sampleParams.EDA ∧
      (requestToWrite sampleParams (sampleController 6 erasedEeprom) sampleParams.EDA 1 0
        (some (ptrTo [])) false).2._buffer.data.isSome = true ∧
      (requestToWrite sampleParams (sampleController 6 erasedEeprom) sampleParams.EDA 1 0
        (some (ptrTo [])) false).2.map sampleParams.EDA = { address := 17, size := 1 } ∧
      (requestToWrite sampleParams (sampleController 6 erasedEeprom) sampleParams.EDA 1 0
        (some (ptrTo [])) false).2._nextAvailableAddress = 18 := by
  decide

/-! ## A second request while one is pending -/

/-- C10 (as amended): on newer hardware a `requestToWrite` with non-null data for a known
category other than `VARIANT_INFO` is never rejected because of a pending request: whatever
the buffer held, afterwards its category, version, length and data are those of the new
request, and without `syncWrite` the call returns 0. -/
theorem requestToWrite_replaces_buffer (p : Params) (s : Controller)
    (hv : s._version = p.V04A) (c : Nat) (hc : c ≠ p.length) (hvi : c ≠ p.VARIANT_INFO)
    (version size : Nat) (d : Nat → Nat) (syncWrite : Bool) :
    (requestToWrite p s c version size (some d) syncWrite).2._buffer
        = { data := some d, dataTypeVersion := version % 256, dataLength := size, datatype := c } ∧
      (syncWrite = false →
        (requestToWrite p s c version size (some d) syncWrite).1 = Ret.ok) := by
  cases syncWrite <;> simp [requestToWrite, hv, hc, hvi, updateBuffer, updateMemoryMap]

/-- Instance of `requestToWrite_replaces_buffer`: a second request arriving at
`pendingController`. -/
theorem requestToWrite_replaces_buffer_witness :
    pendingController._version = sampleParams.V04A ∧ sampleParams.EDA ≠ sampleParams.length ∧
      sampleParams.EDA ≠ sampleParams.VARIANT_INFO ∧
      ((requestToWrite sampleParams pendingController sampleParams.EDA 9 1 (some (ptrTo [1]))
            false).2._buffer
          = { data := some (ptrTo [1]), dataTypeVersion := 9 % 256, dataLength := 1,
              datatype := sampleParams.EDA } ∧
        (false = false →
          (requestToWrite sampleParams pendingController sampleParams.EDA 9 1 (some (ptrTo [1]))
            false).1 = Ret.ok)) :=
  ⟨by decide, by decide, by decide,
    requestToWrite_replaces_buffer sampleParams pendingController (by decide) sampleParams.EDA
      (by decide) (by decide) 9 1 (ptrTo [1]) false⟩

/-- C10 (as stated) fails: the buffer of `pendingController` holds an uncommitted request
(version 7, length 2); a second request is answered with 0 and replaces it (version 9,
length 1, other data). -/
theorem requestToWrite_pending_overwritten :
    pendingController._buffer.data.isSome = true ∧
      pendingController._buffer.dataTypeVersion = 7 ∧
      pendingController._buffer.dataLength = 2 ∧
      (requestToWrite sampleParams pendingController sampleParams.EDA 9 1 (some (ptrTo [1]))
        false).1 = Ret.ok ∧
      (requestToWrite sampleParams pendingController sampleParams.EDA 9 1 (some (ptrTo [1]))
        false).2._buffer.dataTypeVersion = 9 ∧
      (requestToWrite sampleParams pendingController sampleParams.EDA 9 1 (some (ptrTo [1]))
        false).2._buffer.dataLength = 1 ∧
      ((requestToWrite sampleParams pendingController sampleParams.EDA 9 1 (some (ptrTo [1]))
        false).2._buffer.data.map fun m => m 0) = some 1 := by
  decide

/-! ## Reading a category -/

/-- C7: on newer hardware, for a known category, `readFromMemory` fails with
`MEMORY_NOT_UPDATED` exactly when the recorded size of the category is zero; otherwise it
returns 0 and hands back exactly `size` bytes, the store contents at
`address, ..., address + size - 1` of the map entry of the category. -/
theorem readFromMemory_known_category (p : Params) (hp : p.WellFormed) (s : Controller)
    (hv : s._version = p.V04A) (c : Nat) (hc : c < p.length) :
    ((readFromMemory p s c).1 = Ret.error Error.MEMORY_NOT_UPDATED ↔ (s.map c).size = 0) ∧
      ((s.map c).size ≠ 0 →
        ∃ bs : List Nat, readFromMemory p s c = (Ret.ok, some bs) ∧
          bs.length = (s.map c).size ∧
          ∀ i, i < (s.map c).size →
            bs.getD i 0 = s.emotibitEeprom.cells ((s.map c).address + i)) := by
  obtain ⟨_, hlen, _, _, _, _⟩ := hp
  have hmod : c % 256 = c := Nat.mod_eq_of_lt (by omega)
  have hne : c ≠ p.length := by omega
  by_cases hz : (s.map c).size = 0
  · simp [readFromMemory, hv, hmod, hz]
  · refine ⟨by simp [readFromMemory, hv, hmod, hz, hne], fun _ => ?_⟩
    refine ⟨s.emotibitEeprom.read (s.map c).address (s.map c).size, ?_, ?_, ?_⟩
    · simp [readFromMemory, hv, hmod, hz, hne]
    · simp [ExternalEEPROM.read]
    · intro i hi
      simp [ExternalEEPROM.read, List.getD_eq_getElem?_getD, List.getElem?_eq_getElem, hi]

/-- Instance of `readFromMemory_known_category`: the category EDA of `pendingController`. -/
theorem readFromMemory_known_category_witness :
    sampleParams.WellFormed ∧ pendingController._version = sampleParams.V04A ∧
      sampleParams.EDA < sampleParams.length ∧
      (((readFromMemory sampleParams pendingController sampleParams.EDA).1
            = Ret.error Error.MEMORY_NOT_UPDATED ↔
          (pendingController.map sampleParams.EDA).size = 0) ∧
        ((pendingController.map sampleParams.EDA).size ≠ 0 →
          ∃ bs : List Nat,
            readFromMemory sampleParams pendingController sampleParams.EDA = (Ret.ok, some bs) ∧
              bs.length = (pendingController.map sampleParams.EDA).size ∧
              ∀ i, i < (pendingController.map sampleParams.EDA).size →
                bs.getD i 0 = pendingController.emotibitEeprom.cells
                  ((pendingController.map sampleParams.EDA).address + i))) :=
  ⟨by decide, by decide, by decide,
    readFromMemory_known_category sampleParams (by decide) pendingController (by decide)
      sampleParams.EDA (by decide)⟩

/-- C8 (as amended): on hardware older than V04A, `readFromMemory` for every category other
than `VARIANT_INFO` and `EDA` fails with the generic `FAILURE` and hands back no buffer; on
V04A, `readFromMemory` for `DataType::length` fails with `OUT_OF_BOUNDS_ACCESS` and hands
back no buffer whenever the size found at map index `length` is not zero. -/
theorem readFromMemory_unknown_category (p : Params) (hp : p.WellFormed) (s : Controller) :
    (∀ c, s._version < p.V04A → c ≠ p.VARIANT_INFO → c ≠ p.EDA →
        readFromMemory p s c = (Ret.error Error.FAILURE, none)) ∧
      (s._version = p.V04A → (s.map p.length).size ≠ 0 →
        readFromMemory p s p.length = (Ret.error Error.OUT_OF_BOUNDS_ACCESS, none)) := by
  obtain ⟨_, hlen, _, _, _, _⟩ := hp
  have hmod : p.length % 256 = p.length := Nat.mod_eq_of_lt (by omega)
  constructor
  · intro c hlt h1 h2
    have hne : s._version ≠ p.V04A := by omega
    simp [readFromMemory, hne, hlt, h1, h2]
  · intro hv hz
    simp [readFromMemory, hv, hmod, hz]

/-- Instance of `readFromMemory_unknown_category`: both parts at concrete controllers. -/
theorem readFromMemory_unknown_category_witness :
    sampleParams.WellFormed ∧
      ((sampleController 5 erasedEeprom)._version < sampleParams.V04A ∧
        sampleParams.length ≠ sampleParams.VARIANT_INFO ∧ sampleParams.length ≠ sampleParams.EDA ∧
        readFromMemory sampleParams (sampleController 5 erasedEeprom) sampleParams.length
          = (Ret.error Error.FAILURE, none)) ∧
      (overrunController._version = sampleParams.V04A ∧
        (overrunController.map sampleParams.length).size ≠ 0 ∧
        readFromMemory sampleParams overrunController sampleParams.length
          = (Ret.error Error.OUT_OF_BOUNDS_ACCESS, none)) :=
  ⟨by decide,
    ⟨by decide, by decide, by decide,
      (readFromMemory_unknown_category sampleParams (by decide)
        (sampleController 5 erasedEeprom)).1 sampleParams.length (by decide) (by decide)
        (by decide)⟩,
    ⟨by decide, by decide,
      (readFromMemory_unknown_category sampleParams (by decide) overrunController).2
        (by decide) (by decide)⟩⟩

/-- C8 (as stated) fails: on hardware older than V04A the unknown category
`DataType::length` is answered with `FAILURE`, not `OUT_OF_BOUNDS_ACCESS`. -/
theorem readFromMemory_older_hardware_not_out_of_bounds :
    (sampleController 5 erasedEeprom)._version < sampleParams.V04A ∧
      (readFromMemory sampleParams (sampleController 5 erasedEeprom) sampleParams.length).1
        = Ret.error Error.FAILURE ∧
      (readFromMemory sampleParams (sampleController 5 erasedEeprom) sampleParams.length).1
        ≠ Ret.error Error.OUT_OF_BOUNDS_ACCESS := by
  decide

/-! ## Loading the region map -/

/-- C6: on newer hardware, `loadMemoryMap` returns `MEMORY_NOT_UPDATED` with the in-memory
map unchanged if and only if the persisted count is the erased value 255; otherwise it
returns 0, map entries `0, ..., count - 1` are exactly the first `count` entries of the
persisted table, and every other map entry is unchanged. -/
theorem loadMemoryMap_spec (p : Params) (s : Controller) (hv : s._version = p.V04A) :
    (((loadMemoryMap p s).1 = Ret.error Error.MEMORY_NOT_UPDATED ∧ (loadMemoryMap p s).2.map = s.map)
        ↔ s.emotibitEeprom.read1 p.NUM_MAP_SEGMENTS = 255) ∧
      (s.emotibitEeprom.read1 p.NUM_MAP_SEGMENTS ≠ 255 →
        (loadMemoryMap p s).1 = Ret.ok ∧
          (∀ i, i < s.emotibitEeprom.read1 p.NUM_MAP_SEGMENTS →
            (loadMemoryMap p s).2.map i
              = entryOfBytes p (s.emotibitEeprom.read
                  (p.MEMORY_MAP_BASE + i * p.sizeofEepromMemoryMap) p.sizeofEepromMemoryMap)) ∧
          (∀ i, s.emotibitEeprom.read1 p.NUM_MAP_SEGMENTS ≤ i →
            (loadMemoryMap p s).2.map i = s.map i)) := by
  by_cases h : s.emotibitEeprom.read1 p.NUM_MAP_SEGMENTS = 255
  · simp [loadMemoryMap, hv, h]
  · refine ⟨by simp [loadMemoryMap, hv, h], fun _ => ⟨by simp [loadMemoryMap, hv, h], ?_, ?_⟩⟩
    · intro i hi
      simp only [loadMemoryMap, hv, h, if_true, if_false, foldl_pointwise, hi]
      rw [read_drop_take]
      calc i * p.sizeofEepromMemoryMap + p.sizeofEepromMemoryMap
          = p.sizeofEepromMemoryMap * (i + 1) := by ring
        _ ≤ p.sizeofEepromMemoryMap * s.emotibitEeprom.read1 p.NUM_MAP_SEGMENTS :=
          Nat.mul_le_mul_left _ hi
    · intro i hi
      have hn : ¬ i < s.emotibitEeprom.read1 p.NUM_MAP_SEGMENTS := by omega
      simp only [loadMemoryMap, hv, h, if_true, if_false, foldl_pointwise, hn]

/-! ## Payload round trip -/

/-- C3: on newer hardware, for every known category `c`, schema version `v` and non-empty
payload `d` whose region (starting at the cursor, `d.length + 1` bytes) lies inside the
256-byte store and overlaps neither the count byte nor the map table, `requestToWrite`
followed by `writeToEeprom` followed by `readFromMemory` of `c` returns 0 and hands back
exactly the bytes of `d` followed by the byte `v`. -/
theorem payload_round_trip (p : Params) (hp : p.WellFormed) (s : Controller)
    (hv : s._version = p.V04A) (c v : Nat) (hc : c < p.length) (hvb : v < 256) (d : List Nat)
    (hd : d ≠ []) (syncWrite : Bool)
    (hin : s._nextAvailableAddress + d.length + 1 ≤ 256)
    (hcount : p.NUM_MAP_SEGMENTS < s._nextAvailableAddress ∨
      s._nextAvailableAddress + d.length + 1 ≤ p.NUM_MAP_SEGMENTS)
    (_htable : s._nextAvailableAddress + d.length + 1 ≤ p.MEMORY_MAP_BASE ∨
      p.MEMORY_MAP_BASE + p.length * p.sizeofEepromMemoryMap ≤ s._nextAvailableAddress) :
    readFromMemory p
        (writeToEeprom p (requestToWrite p s c v d.length (some (ptrTo d)) syncWrite).2).2 c
      = (Ret.ok, some (d ++ [v])) := by
  obtain ⟨hfb, hlen, _, _, _, hnum⟩ := hp
  have hmod : c % 256 = c := Nat.mod_eq_of_lt (by omega)
  have hne : c ≠ p.length := by omega
  have hw := wordMod_ge p hfb
  have hsz : (d.length + 1) % p.wordMod = d.length + 1 := Nat.mod_eq_of_lt (by omega)
  have hpos : 0 < d.length := List.length_pos.mpr hd
  have hvm : v % 256 = v := Nat.mod_eq_of_lt hvb
  have htm : (updateBuffer p s c v d.length (some (ptrTo d))).map c
      = { address := s._nextAvailableAddress, size := d.length + 1 } := by
    simp [updateBuffer, updateMemoryMap, hmod, hsz]
  obtain ⟨hfv, hfm, hfe⟩ := commit_after_request p s hv c hne v d.length (ptrTo d) syncWrite
  rw [writeToEeprom_store_pending p (updateBuffer p s c v d.length (some (ptrTo d))) hv
    (ptrTo d) rfl hpos] at hfe
  simp only [readFromMemory, hfv, hfm, hmod, htm, hfe, if_true, ne_eq, Nat.succ_ne_zero,
    not_false_eq_true, hne]
  have hbuf : (updateBuffer p s c v d.length (some (ptrTo d)))._buffer
      = { data := some (ptrTo d), dataTypeVersion := v % 256, dataLength := d.length,
          datatype := c } := rfl
  simp only [hbuf, htm]
  rw [read_after_commit, bytesAt_ptrTo, hvm, hvm]

/-- Instance of `payload_round_trip`: category EDA, version 7, payload `[170, 187]` on a new
controller. -/
theorem payload_round_trip_witness :
    sampleParams.WellFormed ∧ (sampleController 6 erasedEeprom)._version = sampleParams.V04A ∧
      sampleParams.EDA < sampleParams.length ∧ 7 < 256 ∧ ([170, 187] : List Nat) ≠ [] ∧
      (sampleController 6 erasedEeprom)._nextAvailableAddress + ([170, 187] : List Nat).length + 1
        ≤ 256 ∧
      readFromMemory sampleParams
          (writeToEeprom sampleParams
            (requestToWrite sampleParams (sampleController 6 erasedEeprom) sampleParams.EDA 7
              ([170, 187] : List Nat).length (some (ptrTo [170, 187])) false).2).2
          sampleParams.EDA
        = (Ret.ok, some ([170, 187] ++ [7])) :=
  ⟨by decide, by decide, by decide, by decide, by decide, by decide,
    payload_round_trip sampleParams (by decide) (sampleController 6 erasedEeprom) (by decide)
      sampleParams.EDA 7 (by decide) (by decide) [170, 187] (by decide) false (by decide)
      (by decide) (by decide)⟩

/-- Instance of `loadMemoryMap_spec`: a new controller over `variantStore`, whose count
byte is 1. -/
theorem loadMemoryMap_spec_witness :
    (sampleController 6 variantStore)._version = sampleParams.V04A ∧
      variantStore.read1 sampleParams.NUM_MAP_SEGMENTS = 1 ∧
      (loadMemoryMap sampleParams (sampleController 6 variantStore)).1 = Ret.ok ∧
      (∀ i, i < (sampleController 6 variantStore).emotibitEeprom.read1
            sampleParams.NUM_MAP_SEGMENTS →
        (loadMemoryMap sampleParams (sampleController 6 variantStore)).2.map i
          = entryOfBytes sampleParams ((sampleController 6 variantStore).emotibitEeprom.read
              (sampleParams.MEMORY_MAP_BASE + i * sampleParams.sizeofEepromMemoryMap)
              sampleParams.sizeofEepromMemoryMap)) ∧
      (∀ i, (sampleController 6 variantStore).emotibitEeprom.read1
            sampleParams.NUM_MAP_SEGMENTS ≤ i →
        (loadMemoryMap sampleParams (sampleController 6 variantStore)).2.map i
          = (sampleController 6 variantStore).map i) :=
  ⟨by decide, by decide,
    (loadMemoryMap_spec sampleParams (sampleController 6 variantStore) (by decide)).2
      (by decide)⟩

/-! ## The table entry written by `writeToEeprom` -/

/-- The write calls issued by `writeToEeprom` for a non-empty pending write, in order: the
incremented count, `sizeof(EepromMemoryMap)` bytes to the table slot of the buffered
category, the payload at the address of the category, the schema version behind it.  The
bytes of the second call are taken `datatype * sizeof(EepromMemoryMap)` entries behind the
start of `map`. -/
theorem writeToEeprom_writes (p : Params) (t : Controller) (hv : t._version = p.V04A)
    (m : Nat → Nat) (hb : t._buffer.data = some m) (hpos : 0 < t._buffer.dataLength) :
    (writeToEeprom p t).2.emotibitEeprom.writes
      = t.emotibitEeprom.writes ++
        [(p.NUM_MAP_SEGMENTS, [(t._numMapSegments + 1) % 256]),
          (p.MEMORY_MAP_BASE + t._buffer.datatype * p.sizeofEepromMemoryMap,
            entryBytes p (t.map (t._buffer.datatype * p.sizeofEepromMemoryMap))),
          ((t.map t._buffer.datatype).address, bytesAt m t._buffer.dataLength),
          ((t.map t._buffer.datatype).address + t._buffer.dataLength,
            [t._buffer.dataTypeVersion % 256])] := by
  rw [writeToEeprom_store_pending p t hv m hb hpos]
  simp [ExternalEEPROM.write1, ExternalEEPROM.write]

/-- C4 fails for the category EDA: `pendingController` holds a pending write of EDA whose
in-memory entry is `{17, 3}` (bytes `17 0 0 0 3 0 0 0`); after `writeToEeprom` the table
slot of EDA at offset 9 holds the bytes of `map[8]` instead, here eight zero bytes. -/
theorem writeToEeprom_entry_slot_mismatch :
    pendingController._version = sampleParams.V04A ∧
      pendingController._buffer.datatype = sampleParams.EDA ∧
      pendingController._buffer.dataLength = 2 ∧
      pendingController.map sampleParams.EDA = { address := 17, size := 3 } ∧
      entryBytes sampleParams (pendingController.map sampleParams.EDA) = [17, 0, 0, 0, 3, 0, 0, 0] ∧
      sampleParams.MEMORY_MAP_BASE + sampleParams.EDA * sampleParams.sizeofEepromMemoryMap = 9 ∧
      committedController.emotibitEeprom.read 9 sampleParams.sizeofEepromMemoryMap
        = [0, 0, 0, 0, 0, 0, 0, 0] ∧
      committedController.emotibitEeprom.read 9 sampleParams.sizeofEepromMemoryMap
        = entryBytes sampleParams (pendingController.map 8) ∧
      entryOfBytes sampleParams
          (committedController.emotibitEeprom.read 9 sampleParams.sizeofEepromMemoryMap)
        ≠ pendingController.map sampleParams.EDA := by
  decide

/-- C5 fails for the category EDA: the four write calls of `writeToEeprom` on
`pendingController` come in the claimed order (count, table slot, payload, version byte),
but the second call carries eight zero bytes, not the bytes `17 0 0 0 3 0 0 0` of the map
entry of EDA. -/
theorem writeToEeprom_trace_for_EDA :
    pendingController.emotibitEeprom.writes = [] ∧
      committedController.emotibitEeprom.writes
        = [(0, [1]), (9, [0, 0, 0, 0, 0, 0, 0, 0]), (17, [170, 187]), (19, [7])] ∧
      committedController.emotibitEeprom.writes
        ≠ [(0, [1]), (9, entryBytes sampleParams (pendingController.map sampleParams.EDA)),
            (17, [170, 187]), (19, [7])] := by
  decide

/-- C2 fails for the category EDA.  After the request and commit on a new controller the
in-memory table is `map[0] = {0, 0}`, `map[1] = {17, 3}`; `loadMemoryMap` on a new
controller over the resulting store returns 0 but yields `map[1] = {0, 0}` and a `map[0]`
read from erased bytes.  When `VARIANT_INFO` is written first and EDA second
(`twoRegionController`), the reloaded entry of EDA is `{0, 0}` where the original holds
`{20, 4}`. -/
theorem loadMemoryMap_after_commit_differs :
    committedController.map 0 = { address := 0, size := 0 } ∧
      committedController.map 1 = { address := 17, size := 3 } ∧
      (loadMemoryMap sampleParams (sampleController 6 committedController.emotibitEeprom)).1
        = Ret.ok ∧
      (loadMemoryMap sampleParams (sampleController 6 committedController.emotibitEeprom)).2.map 1
        = { address := 0, size := 0 } ∧
      (loadMemoryMap sampleParams (sampleController 6 committedController.emotibitEeprom)).2.map 0
        = { address := 4294967295, size := 4294967295 } ∧
      twoRegionController.map 1 = { address := 20, size := 4 } ∧
      (loadMemoryMap sampleParams (sampleController 6 twoRegionController.emotibitEeprom)).1
        = Ret.ok ∧
      (loadMemoryMap sampleParams (sampleController 6 twoRegionController.emotibitEeprom)).2.map 0
        = twoRegionController.map 0 ∧
      (loadMemoryMap sampleParams (sampleController 6 twoRegionController.emotibitEeprom)).2.map 1
        = { address := 0, size := 0 } := by
  decide

/-! ## Allocation by `requestToWrite` -/

theorem writeToEeprom_cursor (p : Params) (t : Controller) :
    (writeToEeprom p t).2._nextAvailableAddress = t._nextAvailableAddress := by
  unfold writeToEeprom
  split
  · cases hd : t._buffer.data with
    | none => simp
    | some m => by_cases h : 0 < t._buffer.dataLength <;> simp [h]
  · rfl

/-- Version, map and cursor after an accepted request are those after `updateBuffer`,
whether or not the request commits at once. -/
theorem requestToWrite_allocation (p : Params) (s : Controller) (hv : s._version = p.V04A)
    (c : Nat) (hne : c ≠ p.length) (v n : Nat) (d : Nat → Nat) (syncWrite : Bool) :
    (requestToWrite p s c v n (some d) syncWrite).2._version = p.V04A ∧
      (requestToWrite p s c v n (some d) syncWrite).2.map
        = (fun i => if i = c % 256 then
            { address := s._nextAvailableAddress, size := (n + 1) % p.wordMod } else s.map i) ∧
      (requestToWrite p s c v n (some d) syncWrite).2._nextAvailableAddress
        = (s._nextAvailableAddress + (n + 1) % p.wordMod) % p.wordMod := by
  by_cases h1 : c = p.VARIANT_INFO
  · have hreq : requestToWrite p s c v n (some d) syncWrite
        = writeToEeprom p (updateBuffer p s c v n (some d)) := by
      simp [requestToWrite, hv, hne, h1.symm]
    rw [hreq, writeToEeprom_version, writeToEeprom_map, writeToEeprom_cursor]
    exact ⟨hv, rfl, rfl⟩
  · cases syncWrite
    · have hreq : requestToWrite p s c v n (some d) false
          = (Ret.ok, updateBuffer p s c v n (some d)) := by
        simp [requestToWrite, hv, hne, h1]
      rw [hreq]
      exact ⟨hv, rfl, rfl⟩
    · have hreq : requestToWrite p s c v n (some d) true
          = (Ret.waiting,
              { updateBuffer p s c v n (some d) with status := MemoryControllerStatus.BUSY }) := by
        simp [requestToWrite, hv, hne, h1]
      rw [hreq]
      exact ⟨hv, rfl, rfl⟩

/-- C12 (as amended): on newer hardware, for every accepted `requestToWrite` of a known
category `c` with payload length `n` for which cursor + n + 1 is representable in the
unsigned type of the cursor, the map entry of `c` becomes
`{address = cursor before the call, size = n + 1}`, the cursor advances by exactly `n + 1`,
and no other map entry changes. -/
theorem requestToWrite_bump_allocation (p : Params) (hp : p.WellFormed) (s : Controller)
    (hv : s._version = p.V04A) (c : Nat) (hc : c < p.length) (v n : Nat) (d : Nat → Nat)
    (syncWrite : Bool) (hfit : s._nextAvailableAddress + n + 1 < p.wordMod) :
    (requestToWrite p s c v n (some d) syncWrite).2.map c
        = { address := s._nextAvailableAddress, size := n + 1 } ∧
      (requestToWrite p s c v n (some d) syncWrite).2._nextAvailableAddress
        = s._nextAvailableAddress + (n + 1) ∧
      ∀ i, i ≠ c → (requestToWrite p s c v n (some d) syncWrite).2.map i = s.map i := by
  obtain ⟨_, hlen, _, _, _, _⟩ := hp
  have hmod : c % 256 = c := Nat.mod_eq_of_lt (by omega)
  have hsz : (n + 1) % p.wordMod = n + 1 := Nat.mod_eq_of_lt (by omega)
  obtain ⟨_, hm, hcur⟩ := requestToWrite_allocation p s hv c (by omega) v n d syncWrite
  rw [hm, hcur, hmod, hsz]
  refine ⟨by simp, Nat.mod_eq_of_lt (by omega), fun i hi => by simp [hi]⟩

/-- Instance of `requestToWrite_bump_allocation`: the category EDA with a two-byte payload
on a new controller. -/
theorem requestToWrite_bump_allocation_witness :
    sampleParams.WellFormed ∧ (sampleController 6 erasedEeprom)._version = sampleParams.V04A ∧
      sampleParams.EDA < sampleParams.length ∧
      (sampleController 6 erasedEeprom)._nextAvailableAddress + 2 + 1 < sampleParams.wordMod ∧
      ((requestToWrite sampleParams (sampleController 6 erasedEeprom) sampleParams.EDA 7 2
            (some (ptrTo [170, 187])) false).2.map sampleParams.EDA
          = { address := (sampleController 6 erasedEeprom)._nextAvailableAddress, size := 2 + 1 } ∧
        (requestToWrite sampleParams (sampleController 6 erasedEeprom) sampleParams.EDA 7 2
            (some (ptrTo [170, 187])) false).2._nextAvailableAddress
          = (sampleController 6 erasedEeprom)._nextAvailableAddress + (2 + 1) ∧
        ∀ i, i ≠ sampleParams.EDA →
          (requestToWrite sampleParams (sampleController 6 erasedEeprom) sampleParams.EDA 7 2
            (some (ptrTo [170, 187])) false).2.map i = (sampleController 6 erasedEeprom).map i) :=
  ⟨by decide, by decide, by decide, by decide,
    requestToWrite_bump_allocation sampleParams (by decide) (sampleController 6 erasedEeprom)
      (by decide) sampleParams.EDA (by decide) 7 2 (ptrTo [170, 187]) false (by decide)⟩

/-- C12 (as stated) fails when `n + 1` overflows: a first request for EDA with payload
length 4294967295 (the largest `size_t` of `sampleParams`) returns 0, records size 0
instead of `n + 1`, and leaves the cursor at 17. -/
theorem requestToWrite_size_overflow :
    (sampleController 6 erasedEeprom)._nextAvailableAddress = 17 ∧
      (requestToWrite sampleParams (sampleController 6 erasedEeprom) sampleParams.EDA 7
        4294967295 (some (ptrTo [170, 187])) false).1 = Ret.ok ∧
      (requestToWrite sampleParams (sampleController 6 erasedEeprom) sampleParams.EDA 7
        4294967295 (some (ptrTo [170, 187])) false).2.map sampleParams.EDA
        = { address := 17, size := 0 } ∧
      (requestToWrite sampleParams (sampleController 6 erasedEeprom) sampleParams.EDA 7
        4294967295 (some (ptrTo [170, 187])) false).2._nextAvailableAddress = 17 := by
  decide

/-- C11 (as amended): `requestToWrite` allocates on every accepted request, not only on the
first of a category.  On newer hardware, for a known category whose map entry has non-zero
size and lies below the cursor, a further accepted request (cursor + n + 1 representable)
records the cursor value before the call as the new address of the category, which differs
from the old address, and advances the cursor by `n + 1`. -/
theorem requestToWrite_reallocates (p : Params) (hp : p.WellFormed) (s : Controller)
    (hv : s._version = p.V04A) (c : Nat) (hc : c < p.length) (v n : Nat) (d : Nat → Nat)
    (syncWrite : Bool) (hsize : (s.map c).size ≠ 0)
    (hbelow : (s.map c).address + (s.map c).size ≤ s._nextAvailableAddress)
    (hfit : s._nextAvailableAddress + n + 1 < p.wordMod) :
    ((requestToWrite p s c v n (some d) syncWrite).2.map c).address = s._nextAvailableAddress ∧
      ((requestToWrite p s c v n (some d) syncWrite).2.map c).address ≠ (s.map c).address ∧
      (requestToWrite p s c v n (some d) syncWrite).2._nextAvailableAddress
        = s._nextAvailableAddress + n + 1 := by
  obtain ⟨_, hlen, _, _, _, _⟩ := hp
  have hmod : c % 256 = c := Nat.mod_eq_of_lt (by omega)
  have hsz : (n + 1) % p.wordMod = n + 1 := Nat.mod_eq_of_lt (by omega)
  obtain ⟨_, hm, hcur⟩ := requestToWrite_allocation p s hv c (by omega) v n d syncWrite
  rw [hm, hcur, hmod, hsz]
  refine ⟨by simp, ?_, Nat.mod_eq_of_lt (by omega)⟩
  simp only [if_true]
  omega

/-- Instance of `requestToWrite_reallocates`: a second request for EDA with the same payload
length at `pendingController`. -/
theorem requestToWrite_reallocates_witness :
    sampleParams.WellFormed ∧ pendingController._version = sampleParams.V04A ∧
      sampleParams.EDA < sampleParams.length ∧
      (pendingController.map sampleParams.EDA).size ≠ 0 ∧
      (pendingController.map sampleParams.EDA).address + (pendingController.map sampleParams.EDA).size
        ≤ pendingController._nextAvailableAddress ∧
      pendingController._nextAvailableAddress + 2 + 1 < sampleParams.wordMod ∧
      (((requestToWrite sampleParams pendingController sampleParams.EDA 7 2
            (some (ptrTo [170, 187])) false).2.map sampleParams.EDA).address
          = pendingController._nextAvailableAddress ∧
        ((requestToWrite sampleParams pendingController sampleParams.EDA 7 2
            (some (ptrTo [170, 187])) false).2.map sampleParams.EDA).address
          ≠ (pendingController.map sampleParams.EDA).address ∧
        (requestToWrite sampleParams pendingController sampleParams.EDA 7 2
            (some (ptrTo [170, 187])) false).2._nextAvailableAddress
          = pendingController._nextAvailableAddress + 2 + 1) :=
  ⟨by decide, by decide, by decide, by decide, by decide, by decide,
    requestToWrite_reallocates sampleParams (by decide) pendingController (by decide)
      sampleParams.EDA (by decide) 7 2 (ptrTo [170, 187]) false (by decide) (by decide)
      (by decide)⟩

/-- C11 (as stated) fails: in `pendingController` the category EDA has the entry `{17, 3}`
and the cursor is 20; a further request for EDA with the same payload length 2 returns 0,
moves the recorded address to 20 and the cursor to 23. -/
theorem requestToWrite_second_write_moves_region :
    pendingController.map sampleParams.EDA = { address := 17, size := 3 } ∧
      pendingController._nextAvailableAddress = 20 ∧
      (requestToWrite sampleParams pendingController sampleParams.EDA 7 2
        (some (ptrTo [170, 187])) false).1 = Ret.ok ∧
      (requestToWrite sampleParams pendingController sampleParams.EDA 7 2
        (some (ptrTo [170, 187])) false).2.map sampleParams.EDA = { address := 20, size := 3 } ∧
      (requestToWrite sampleParams pendingController sampleParams.EDA 7 2
        (some (ptrTo [170, 187])) false).2._nextAvailableAddress = 23 := by
  decide

/-! ## What a commit leaves behind -/

/-- C13: on newer hardware, for every prior state, `writeToEeprom` returns 0, leaves the
pending buffer cleared (no data, length 0, version 0, category `DataType::length`) and does
not modify the in-memory region map. -/
theorem writeToEeprom_clears_buffer (p : Params) (s : Controller) (hv : s._version = p.V04A) :
    (writeToEeprom p s).1 = Ret.ok ∧
      (writeToEeprom p s).2._buffer.data = none ∧
      (writeToEeprom p s).2._buffer.dataLength = 0 ∧
      (writeToEeprom p s).2._buffer.dataTypeVersion = 0 ∧
      (writeToEeprom p s).2._buffer.datatype = p.length ∧
      (writeToEeprom p s).2.map = s.map := by
  refine ⟨writeToEeprom_ret p s hv, ?_, ?_, ?_, ?_, writeToEeprom_map p s⟩ <;>
    rw [writeToEeprom_buffer p s hv]

/-- Instance of `writeToEeprom_clears_buffer`: the commit of `pendingController`. -/
theorem writeToEeprom_clears_buffer_witness :
    pendingController._version = sampleParams.V04A ∧
      ((writeToEeprom sampleParams pendingController).1 = Ret.ok ∧
        (writeToEeprom sampleParams pendingController).2._buffer.data = none ∧
        (writeToEeprom sampleParams pendingController).2._buffer.dataLength = 0 ∧
        (writeToEeprom sampleParams pendingController).2._buffer.dataTypeVersion = 0 ∧
        (writeToEeprom sampleParams pendingController).2._buffer.datatype = sampleParams.length ∧
        (writeToEeprom sampleParams pendingController).2.map = pendingController.map) :=
  ⟨by decide, writeToEeprom_clears_buffer sampleParams pendingController (by decide)⟩

/-- C20: on newer hardware, `requestToWrite` for `VARIANT_INFO` with non-null data equals,
in result and final state, `bufferThenCommit` (buffer the request, then `writeToEeprom`)
whatever `syncWrite` is, so it returns 0 with the pending buffer cleared; for every other
known category with `syncWrite = false` it returns 0, the buffer holds the request and the
store, its list of write calls included, is untouched. -/
theorem requestToWrite_variant_info_commits (p : Params) (hp : p.WellFormed) (s : Controller)
    (hv : s._version = p.V04A) (v n : Nat) (d : Nat → Nat) :
    (∀ syncWrite : Bool,
        requestToWrite p s p.VARIANT_INFO v n (some d) syncWrite
            = bufferThenCommit p s p.VARIANT_INFO v n d ∧
          (requestToWrite p s p.VARIANT_INFO v n (some d) syncWrite).1 = Ret.ok ∧
          (requestToWrite p s p.VARIANT_INFO v n (some d) syncWrite).2._buffer
            = { data := none, dataLength := 0, dataTypeVersion := 0, datatype := p.length }) ∧
      (∀ c, c < p.length → c ≠ p.VARIANT_INFO →
        (requestToWrite p s c v n (some d) false).1 = Ret.ok ∧
          (requestToWrite p s c v n (some d) false).2._buffer
            = { data := some d, dataTypeVersion := v % 256, dataLength := n, datatype := c } ∧
          (requestToWrite p s c v n (some d) false).2.emotibitEeprom = s.emotibitEeprom) := by
  obtain ⟨_, _, hvi, _, _, _⟩ := hp
  have hne : p.VARIANT_INFO ≠ p.length := by omega
  have hupd : (updateBuffer p s p.VARIANT_INFO v n (some d))._version = p.V04A := hv
  constructor
  · intro syncWrite
    have hreq : requestToWrite p s p.VARIANT_INFO v n (some d) syncWrite
        = bufferThenCommit p s p.VARIANT_INFO v n d := by
      simp [requestToWrite, bufferThenCommit, hv, hne]
    refine ⟨hreq, ?_, ?_⟩
    · rw [hreq]; exact writeToEeprom_ret p _ hupd
    · rw [hreq]; exact writeToEeprom_buffer p _ hupd
  · intro c hc hcv
    have hcl : c ≠ p.length := by omega
    simp [requestToWrite, hv, hcl, hcv, updateBuffer, updateMemoryMap]

/-- Instance of `requestToWrite_variant_info_commits` on a new controller. -/
theorem requestToWrite_variant_info_commits_witness :
    sampleParams.WellFormed ∧ (sampleController 6 erasedEeprom)._version = sampleParams.V04A ∧
      requestToWrite sampleParams (sampleController 6 erasedEeprom) sampleParams.VARIANT_INFO 7 2
          (some (ptrTo [170, 187])) true
        = bufferThenCommit sampleParams (sampleController 6 erasedEeprom)
            sampleParams.VARIANT_INFO 7 2 (ptrTo [170, 187]) ∧
      (requestToWrite sampleParams (sampleController 6 erasedEeprom) sampleParams.EDA 7 2
          (some (ptrTo [170, 187])) false).2.emotibitEeprom
        = (sampleController 6 erasedEeprom).emotibitEeprom :=
  ⟨by decide, by decide,
    ((requestToWrite_variant_info_commits sampleParams (by decide)
      (sampleController 6 erasedEeprom) (by decide) 7 2 (ptrTo [170, 187])).1 true).1,
    ((requestToWrite_variant_info_commits sampleParams (by decide)
      (sampleController 6 erasedEeprom) (by decide) 7 2 (ptrTo [170, 187])).2
      sampleParams.EDA (by decide) (by decide)).2.2⟩

/-! ## Capacity -/

/-- C19 (as amended): `requestToWrite` makes no capacity check.  On newer hardware every
request with a known category, non-null data and a representable `n + 1` is recorded as
`{address = cursor, size = n + 1}`, whether or not it fits; the recorded region ends at or
before `capacityBytes` exactly when cursor + n + 1 does. -/
theorem requestToWrite_records_without_capacity_check (p : Params) (hp : p.WellFormed)
    (s : Controller) (hv : s._version = p.V04A) (c : Nat) (hc : c < p.length) (v n : Nat)
    (d : Nat → Nat) (syncWrite : Bool) (hfit : n + 1 < p.wordMod) :
    (requestToWrite p s c v n (some d) syncWrite).2.map c
        = { address := s._nextAvailableAddress, size := n + 1 } ∧
      (((requestToWrite p s c v n (some d) syncWrite).2.map c).address
            + ((requestToWrite p s c v n (some d) syncWrite).2.map c).size
          ≤ s.emotibitEepromSettings.capacityBytes
        ↔ s._nextAvailableAddress + n + 1 ≤ s.emotibitEepromSettings.capacityBytes) := by
  obtain ⟨_, hlen, _, _, _, _⟩ := hp
  have hmod : c % 256 = c := Nat.mod_eq_of_lt (by omega)
  have hsz : (n + 1) % p.wordMod = n + 1 := Nat.mod_eq_of_lt hfit
  obtain ⟨_, hm, _⟩ := requestToWrite_allocation p s hv c (by omega) v n d syncWrite
  have hentry : (requestToWrite p s c v n (some d) syncWrite).2.map c
      = { address := s._nextAvailableAddress, size := n + 1 } := by
    rw [hm, hmod, hsz]; simp
  refine ⟨hentry, ?_⟩
  rw [hentry]
  simp only []
  omega

/-- Instance of `requestToWrite_records_without_capacity_check`: a payload of 300 bytes for
EDA on `initialisedController`, whose capacity is 256. -/
theorem requestToWrite_records_without_capacity_check_witness :
    sampleParams.WellFormed ∧ initialisedController._version = sampleParams.V04A ∧
      sampleParams.EDA < sampleParams.length ∧ 300 + 1 < sampleParams.wordMod ∧
      ((requestToWrite sampleParams initialisedController sampleParams.EDA 7 300
            (some (ptrTo [1])) false).2.map sampleParams.EDA
          = { address := initialisedController._nextAvailableAddress, size := 300 + 1 } ∧
        (((requestToWrite sampleParams initialisedController sampleParams.EDA 7 300
                (some (ptrTo [1])) false).2.map sampleParams.EDA).address
              + ((requestToWrite sampleParams initialisedController sampleParams.EDA 7 300
                (some (ptrTo [1])) false).2.map sampleParams.EDA).size
            ≤ initialisedController.emotibitEepromSettings.capacityBytes
          ↔ initialisedController._nextAvailableAddress + 300 + 1
            ≤ initialisedController.emotibitEepromSettings.capacityBytes)) :=
  ⟨by decide, by decide, by decide, by decide,
    requestToWrite_records_without_capacity_check sampleParams (by decide) initialisedController
      (by decide) sampleParams.EDA (by decide) 7 300 (ptrTo [1]) false (by decide)⟩

/-- C19 (as stated) fails: after `init` has set `capacityBytes` to 256, a request for EDA
with a payload of 300 bytes returns 0 and is recorded as `{17, 301}`, a region ending at
318. -/
theorem requestToWrite_beyond_capacity_recorded :
    (init sampleParams (sampleController 6 erasedEeprom) 6 true true).1 = some true ∧
      initialisedController.emotibitEepromSettings.capacityBytes = 256 ∧
      (requestToWrite sampleParams initialisedController sampleParams.EDA 7 300
        (some (ptrTo [1])) false).1 = Ret.ok ∧
      (requestToWrite sampleParams initialisedController sampleParams.EDA 7 300
        (some (ptrTo [1])) false).2.map sampleParams.EDA = { address := 17, size := 301 } ∧
      ¬ (17 + 301 ≤ initialisedController.emotibitEepromSettings.capacityBytes) := by
  decide

/-! ## Disjointness of the allocated regions -/

theorem afterRequest_invariant (p : Params) (hp : p.WellFormed) (t : Controller)
    (hv : t._version = p.V04A) (r : Request) (hc : r.datatype < p.length)
    (hfit : t._nextAvailableAddress + r.size + 1 < p.wordMod) (hinv : RegionInvariant p t) :
    (afterRequest p t r)._version = p.V04A ∧
      t._nextAvailableAddress ≤ (afterRequest p t r)._nextAvailableAddress ∧
      RegionInvariant p (afterRequest p t r) := by
  obtain ⟨_, hlen, _, _, _, _⟩ := hp
  have hmod : r.datatype % 256 = r.datatype := Nat.mod_eq_of_lt (by omega)
  have hsz : (r.size + 1) % p.wordMod = r.size + 1 := Nat.mod_eq_of_lt (by omega)
  obtain ⟨hv2, hm, hcur⟩ :=
    requestToWrite_allocation p t hv r.datatype (by omega) r.version r.size r.data r.syncWrite
  rw [hmod, hsz] at hm
  rw [hsz, Nat.mod_eq_of_lt (by omega)] at hcur
  obtain ⟨hdis, hbel⟩ := hinv
  refine ⟨hv2, ?_, ?_, ?_⟩
  · show t._nextAvailableAddress ≤
      (requestToWrite p t r.datatype r.version r.size (some r.data) r.syncWrite).2._nextAvailableAddress
    rw [hcur]; omega
  · intro i j hi hj hij hsi hsj
    simp only [afterRequest, hm] at hsi hsj ⊢
    by_cases h1 : i = r.datatype
    · have h2 : j ≠ r.datatype := fun h => hij (h1.trans h.symm)
      simp only [h1, h2, if_true, if_false] at hsj ⊢
      have := hbel j hj hsj
      omega
    · by_cases h2 : j = r.datatype
      · simp only [h1, h2, if_true, if_false] at hsi ⊢
        have := hbel i hi hsi
        omega
      · simp only [h1, h2, if_false] at hsi hsj ⊢
        exact hdis i j hi hj hij hsi hsj
  · intro i hi hsi
    simp only [afterRequest, hm, hcur] at hsi ⊢
    by_cases h1 : i = r.datatype
    · simp only [h1, if_true]; omega
    · simp only [h1, if_false] at hsi ⊢
      have := hbel i hi hsi
      omega

theorem afterRequests_invariant (p : Params) (hp : p.WellFormed) (rs : List Request) :
    ∀ t : Controller, t._version = p.V04A → Accepted p t rs → RegionInvariant p t →
      (afterRequests p t rs)._version = p.V04A ∧
        t._nextAvailableAddress ≤ (afterRequests p t rs)._nextAvailableAddress ∧
        RegionInvariant p (afterRequests p t rs) := by
  induction rs with
  | nil => intro t hv _ hinv; exact ⟨hv, le_refl _, hinv⟩
  | cons r rs ih =>
    intro t hv hacc hinv
    obtain ⟨hc, hfit, hrest⟩ := hacc
    obtain ⟨hv1, hle1, hinv1⟩ := afterRequest_invariant p hp t hv r hc hfit hinv
    obtain ⟨hv2, hle2, hinv2⟩ := ih (afterRequest p t r) hv1 hrest hinv1
    exact ⟨hv2, le_trans hle1 hle2, hinv2⟩

theorem accepted_append (p : Params) (hp : p.WellFormed) (xs ys : List Request) :
    ∀ t : Controller, t._version = p.V04A → RegionInvariant p t → Accepted p t (xs ++ ys) →
      Accepted p t xs ∧ Accepted p (afterRequests p t xs) ys := by
  induction xs with
  | nil => intro t _ _ h; exact ⟨trivial, h⟩
  | cons r xs ih =>
    intro t hv hinv hacc
    obtain ⟨hc, hfit, hrest⟩ := hacc
    obtain ⟨hv1, _, hinv1⟩ := afterRequest_invariant p hp t hv r hc hfit hinv
    obtain ⟨h1, h2⟩ := ih (afterRequest p t r) hv1 hinv1 hrest
    exact ⟨⟨hc, hfit, h1⟩, h2⟩

theorem afterRequests_append (p : Params) (t : Controller) (xs ys : List Request) :
    afterRequests p t (xs ++ ys) = afterRequests p (afterRequests p t xs) ys := by
  simp [afterRequests, List.foldl_append]

/-- C18: starting on newer hardware from a controller whose region map is empty (every
size zero), after any sequence of accepted `requestToWrite` calls without cursor overflow,
the regions `[address, address + size)` of any two distinct categories with non-zero size
are disjoint, every such region ends at or before the cursor, and the cursor never
decreases: its value after any initial part of the sequence is at most its final value. -/
theorem regions_disjoint_after_requests (p : Params) (hp : p.WellFormed) (s : Controller)
    (hv : s._version = p.V04A) (hempty : ∀ i, i < p.length → (s.map i).size = 0)
    (rs : List Request) (hacc : Accepted p s rs) :
    (∀ i j, i < p.length → j < p.length → i ≠ j →
        ((afterRequests p s rs).map i).size ≠ 0 → ((afterRequests p s rs).map j).size ≠ 0 →
        ((afterRequests p s rs).map i).address + ((afterRequests p s rs).map i).size
            ≤ ((afterRequests p s rs).map j).address ∨
          ((afterRequests p s rs).map j).address + ((afterRequests p s rs).map j).size
            ≤ ((afterRequests p s rs).map i).address) ∧
      (∀ i, i < p.length → ((afterRequests p s rs).map i).size ≠ 0 →
        ((afterRequests p s rs).map i).address + ((afterRequests p s rs).map i).size
          ≤ (afterRequests p s rs)._nextAvailableAddress) ∧
      (∀ xs ys, rs = xs ++ ys →
        s._nextAvailableAddress ≤ (afterRequests p s xs)._nextAvailableAddress ∧
          (afterRequests p s xs)._nextAvailableAddress
            ≤ (afterRequests p s rs)._nextAvailableAddress) := by
  have hinv : RegionInvariant p s :=
    ⟨fun i _ hi _ _ hsi _ => absurd (hempty i hi) hsi, fun i hi hsi => absurd (hempty i hi) hsi⟩
  obtain ⟨_, _, hfinal⟩ := afterRequests_invariant p hp rs s hv hacc hinv
  refine ⟨hfinal.1, hfinal.2, ?_⟩
  intro xs ys hsplit
  subst hsplit
  obtain ⟨hx, hy⟩ := accepted_append p hp xs ys s hv hinv hacc
  obtain ⟨hvx, hlex, hinvx⟩ := afterRequests_invariant p hp xs s hv hx hinv
  obtain ⟨_, hley, _⟩ := afterRequests_invariant p hp ys _ hvx hy hinvx
  rw [afterRequests_append]
  exact ⟨hlex, hley⟩

/-- Instance of `regions_disjoint_after_requests`: after `sampleRequests` on a new
controller the regions of `VARIANT_INFO` and EDA are disjoint and end at or before the
cursor. -/
theorem regions_disjoint_after_requests_witness :
    sampleParams.WellFormed ∧ (sampleController 6 erasedEeprom)._version = sampleParams.V04A ∧
      (∀ i, i < sampleParams.length → ((sampleController 6 erasedEeprom).map i).size = 0) ∧
      Accepted sampleParams (sampleController 6 erasedEeprom) sampleRequests ∧
      (((afterRequests sampleParams (sampleController 6 erasedEeprom) sampleRequests).map 0).address
            + ((afterRequests sampleParams (sampleController 6 erasedEeprom) sampleRequests).map 0).size
          ≤ ((afterRequests sampleParams (sampleController 6 erasedEeprom) sampleRequests).map 1).address ∨
        ((afterRequests sampleParams (sampleController 6 erasedEeprom) sampleRequests).map 1).address
            + ((afterRequests sampleParams (sampleController 6 erasedEeprom) sampleRequests).map 1).size
          ≤ ((afterRequests sampleParams (sampleController 6 erasedEeprom) sampleRequests).map 0).address) :=
  ⟨by decide, by decide, by decide, ⟨by decide, by decide, by decide, by decide, trivial⟩,
    (regions_disjoint_after_requests sampleParams (by decide) (sampleController 6 erasedEeprom)
      (by decide) (by decide) sampleRequests
      ⟨by decide, by decide, by decide, by decide, trivial⟩).1 0 1 (by decide) (by decide)
      (by decide) (by decide) (by decide)⟩

/-! ## Restart and first boot -/

/-- The cursor is not touched by `loadMemoryMap`. -/
theorem loadMemoryMap_cursor (p : Params) (s : Controller) :
    (loadMemoryMap p s).2._nextAvailableAddress = s._nextAvailableAddress := by
  unfold loadMemoryMap
  by_cases hv : s._version = p.V04A
  · by_cases h : s.emotibitEeprom.read1 p.NUM_MAP_SEGMENTS = 255 <;> simp [hv, h]
  · simp [hv]

/-- On newer hardware `loadMemoryMap` leaves the persisted count in `_numMapSegments`, the
erased value 255 included. -/
theorem loadMemoryMap_count (p : Params) (s : Controller) (hv : s._version = p.V04A) :
    (loadMemoryMap p s).2._numMapSegments = s.emotibitEeprom.read1 p.NUM_MAP_SEGMENTS := by
  unfold loadMemoryMap
  by_cases h : s.emotibitEeprom.read1 p.NUM_MAP_SEGMENTS = 255 <;> simp [hv, h]

/-- C16 fails: `variantStore` holds the committed region `{17, 3}` of `VARIANT_INFO`.  On a
new controller `loadMemoryMap` returns 0 and restores that entry, but the cursor is still
17; the next request, for the category EDA that is not in the loaded map, returns 0 and is
given the region `{17, 4}`, which overlaps `{17, 3}`.  After its commit `VARIANT_INFO` reads
back the EDA payload `[1, 2, 3]` instead of `[170, 187, 7]`. -/
theorem allocation_after_restart_overlaps :
    (loadMemoryMap sampleParams (sampleController 6 variantStore)).1 = Ret.ok ∧
      restartedController.map sampleParams.VARIANT_INFO = { address := 17, size := 3 } ∧
      (restartedController.map sampleParams.EDA).size = 0 ∧
      restartedController._nextAvailableAddress = 17 ∧
      (requestToWrite sampleParams restartedController sampleParams.EDA 3 3
        (some (ptrTo [1, 2, 3])) false).1 = Ret.ok ∧
      restartedAfterWrite.map sampleParams.EDA = { address := 17, size := 4 } ∧
      restartedAfterWrite.map sampleParams.VARIANT_INFO = { address := 17, size := 3 } ∧
      ¬ (17 + 4 ≤ 17 ∨ 17 + 3 ≤ 17) ∧
      readFromMemory sampleParams restartedController sampleParams.VARIANT_INFO
        = (Ret.ok, some [170, 187, 7]) ∧
      readFromMemory sampleParams restartedAfterWrite sampleParams.VARIANT_INFO
        = (Ret.ok, some [1, 2, 3]) := by
  decide

/-- C17 fails: on an erased store `loadMemoryMap` returns `MEMORY_NOT_UPDATED` and leaves
255 in `_numMapSegments`; the first request and commit then increment it to 0 in 8-bit
arithmetic and persist the count 0, not 1.  A later `loadMemoryMap` on a new controller
returns 0 but reads no entry: its `map[0]` stays `{0, 0}` although `{17, 3}` was written. -/
theorem first_boot_persists_count_zero :
    erasedEeprom.read1 sampleParams.NUM_MAP_SEGMENTS = 255 ∧
      (loadMemoryMap sampleParams (sampleController 6 erasedEeprom)).1
        = Ret.error Error.MEMORY_NOT_UPDATED ∧
      firstBootController._numMapSegments = 255 ∧
      firstBootAfterWrite.map sampleParams.VARIANT_INFO = { address := 17, size := 3 } ∧
      firstBootAfterWrite.emotibitEeprom.writes
        = [(0, [0]), (1, [17, 0, 0, 0, 3, 0, 0, 0]), (17, [170, 187]), (19, [7])] ∧
      firstBootAfterWrite.emotibitEeprom.read1 sampleParams.NUM_MAP_SEGMENTS = 0 ∧
      (loadMemoryMap sampleParams (sampleController 6 firstBootAfterWrite.emotibitEeprom)).1
        = Ret.ok ∧
      (loadMemoryMap sampleParams (sampleController 6 firstBootAfterWrite.emotibitEeprom)).2.map
          sampleParams.VARIANT_INFO
        = { address := 0, size := 0 } := by
  decide

end EmotiBitMemoryController

namespace EdaCorrection

/-! ## The validity flag and the OTP register map -/

/-- C14 (as amended): in the newly constructed `EdaCorrection` object no OTP read has been
performed (`readOtpValues` is false) and the validity flag `isOtpValid` is true: the flag
starts out as valid and is not tied to an OTP read. -/
theorem fresh_flags (progress : Progress) (vref1Corrected RskinFeedback : Nat) :
    (fresh progress vref1Corrected RskinFeedback).readOtpValues = false ∧
      (fresh progress vref1Corrected RskinFeedback).isOtpValid = true :=
  ⟨rfl, rfl⟩

/-- C14 (as stated) fails at the newly constructed object: `readOtpValues` is false, yet
`isOtpValid` is not false. -/
theorem fresh_valid_before_read :
    (fresh Progress.WAITING_FOR_SERIAL_DATA 0 0).readOtpValues = false ∧
      ¬ ((fresh Progress.WAITING_FOR_SERIAL_DATA 0 0).readOtpValues = false →
        (fresh Progress.WAITING_FOR_SERIAL_DATA 0 0).isOtpValid = false) := by
  decide

/-- C15: the five calibration float addresses are 0x82, 0x86, 0x8A, 0x8E, 0x92, each 4
behind the previous one; the five 4-byte regions `[a, a + 4)` are pairwise disjoint; none
contains the metadata address 0xB6 or overlaps the 4-byte test slots at 0xA2 and 0xA6; and
every region ends within 8 bits. -/
theorem otp_float_regions :
    floatAddresses = [0x82, 0x86, 0x8A, 0x8E, 0x92] ∧
      floatAddresses.length = NUM_EDA_READINGS ∧
      floatBytes = 4 ∧
      SI_7013_OTP_ADDRESS_FLOAT_1 = SI_7013_OTP_ADDRESS_FLOAT_0 + 4 ∧
      SI_7013_OTP_ADDRESS_FLOAT_2 = SI_7013_OTP_ADDRESS_FLOAT_1 + 4 ∧
      SI_7013_OTP_ADDRESS_FLOAT_3 = SI_7013_OTP_ADDRESS_FLOAT_2 + 4 ∧
      SI_7013_OTP_ADDRESS_FLOAT_4 = SI_7013_OTP_ADDRESS_FLOAT_3 + 4 ∧
      (∀ i, i < 5 → ∀ j, j < 5 → i ≠ j →
        disjoint (floatAddresses.getD i 0) floatBytes (floatAddresses.getD j 0) floatBytes) ∧
      SI_7013_OTP_ADDRESS_METADATA = 0xB6 ∧
      SI_7013_OTP_ADDRESS_TEST_1 = 0xA2 ∧
      SI_7013_OTP_ADDRESS_TEST_2 = 0xA6 ∧
      (∀ a ∈ floatAddresses,
        ¬ (a ≤ SI_7013_OTP_ADDRESS_METADATA ∧ SI_7013_OTP_ADDRESS_METADATA < a + floatBytes) ∧
          disjoint a floatBytes SI_7013_OTP_ADDRESS_TEST_1 floatBytes ∧
          disjoint a floatBytes SI_7013_OTP_ADDRESS_TEST_2 floatBytes ∧
          a + floatBytes ≤ 255) := by
  decide

end EdaCorrection
